import Mathlib

/-!
Verification development for the weaverun intercepting proxy
(src/weaverun/config.py, trace_context.py, dashboard.py, proxy.py).

Modelling conventions, used consistently below:
* Python JSON-decoded values are the inductive `JVal`; Python `None` is `JVal.null`.
* Python text is modelled at the code-point level (`String` or `List Char`);
  `bytes.decode("utf-8")` is the identity on the decoded text.
* Python floats that merely travel through records (latency values) are
  modelled as `Int`; `round(x, 1)` on them is the identity `round1`.
* Random identifiers from `uuid.uuid4()` are injected as explicit `fresh_*`
  string parameters.
* The regular-expression engine `re.search` is an external library and is
  passed in as an explicit `search : String → String → Bool` parameter
  (pattern, subject); `lit_search` instantiates it for metacharacter-free
  patterns as substring containment, which is exactly `re.search` there.
* Python dicts are insertion-ordered association lists: assignment to an
  existing key replaces in place, otherwise appends (`pyDictSet`).
* In `dashboard.py` the deque and the id map hold references to the same
  record objects; the model keeps record state in the id map and the ring
  holds the record ids, which reproduces the reference semantics.
-/

/-- JSON-decoded Python value (`json.loads` result): None, bool, number
(integers only; floats do not occur in any input considered here), str,
list, dict. -/
inductive JVal where
  | null
  | bool (b : Bool)
  | num (n : Int)
  | str (s : String)
  | arr (xs : List JVal)
  | obj (fields : List (String × JVal))

/-- Python truthiness of a JSON-decoded value. -/
def truthy : JVal → Bool
  | JVal.null => false
  | JVal.bool b => b
  | JVal.num n => !(n == 0)
  | JVal.str s => !(s == "")
  | JVal.arr xs => !xs.isEmpty
  | JVal.obj fs => !fs.isEmpty

/-- Python dict assignment `d[k] = v`: replace in place if the key exists,
otherwise append (dicts preserve insertion order). -/
def pyDictSet {α : Type} (d : List (String × α)) (k : String) (v : α) : List (String × α) :=
  if d.any (fun kv => kv.1 == k) then d.map (fun kv => if kv.1 == k then (k, v) else kv)
  else d ++ [(k, v)]

/-- Python dict lookup `d.get(k)`; keys are unique by construction. -/
def pyDictGet {α : Type} (d : List (String × α)) (k : String) : Option α :=
  (d.find? (fun kv => kv.1 == k)).map (fun kv => kv.2)

/-- Python `data.get(k, dflt)` on a JSON value known to be a dict. -/
def jgetD (j : JVal) (k : String) (dflt : JVal) : JVal :=
  match j with
  | JVal.obj fs =>
    match pyDictGet fs k with
    | some v => v
    | none => dflt
  | _ => dflt

/-- Python `data.get(k)` (default `None`). -/
def jget (j : JVal) (k : String) : JVal := jgetD j k JVal.null

/-- Python `d[k] = v` on a JSON dict value. -/
def jset (j : JVal) (k : String) (v : JVal) : JVal :=
  match j with
  | JVal.obj fs => JVal.obj (pyDictSet fs k v)
  | _ => j

/-- Python `a or b` on JSON values. -/
def pyOr (a b : JVal) : JVal := if truthy a then a else b

mutual

/-- Python `repr` of a JSON-decoded value, as far as the development needs
it (string escaping inside container reprs is not reproduced; every use is
guarded by truthiness and only non-emptiness matters). -/
def pyRepr : JVal → String
  | JVal.null => "None"
  | JVal.bool true => "True"
  | JVal.bool false => "False"
  | JVal.num n => toString n
  | JVal.str s => "\x27" ++ s ++ "\x27"
  | JVal.arr xs => "[" ++ pyReprList xs ++ "]"
  | JVal.obj fs => "\x7b" ++ pyReprFields fs ++ "\x7d"

/-- Comma-separated reprs of the elements of a list. -/
def pyReprList : List JVal → String
  | [] => ""
  | [x] => pyRepr x
  | x :: xs => pyRepr x ++ ", " ++ pyReprList xs

/-- Comma-separated `key: value` reprs of the fields of a dict. -/
def pyReprFields : List (String × JVal) → String
  | [] => ""
  | [(k, v)] => "\x27" ++ k ++ "\x27: " ++ pyRepr v
  | (k, v) :: fs => "\x27" ++ k ++ "\x27: " ++ pyRepr v ++ ", " ++ pyReprFields fs

end

/-- Python `str` of a JSON-decoded value (`str` of a string is itself,
otherwise as `repr`). -/
def pyStr : JVal → String
  | JVal.str s => s
  | v => pyRepr v

/-- Python slicing `s[:n]` (code points). -/
def pyTake (n : Nat) (s : String) : String := String.mk (s.data.take n)

/-- Python `s.startswith(pre)`. -/
def strStartsWith (s pre : String) : Bool := pre.data.isPrefixOf s.data

/-- Python `s.endswith(suf)`. -/
def strEndsWith (s suf : String) : Bool := suf.data.isSuffixOf s.data

/-- Python ASCII whitespace stripped by `str.strip()`. -/
def isPySpace (c : Char) : Bool :=
  c = ' ' || c = '\t' || c = '\n' || c = '\r' || c = '\x0b' || c = '\x0c'

/-- Python `str.strip()` at the code-point level. -/
def pyStrip (cs : List Char) : List Char :=
  ((cs.dropWhile isPySpace).reverse.dropWhile isPySpace).reverse

/-- Prepend a char to the first segment of a split (helper for
`splitOnCharL`). -/
def consHead (c : Char) : List (List Char) → List (List Char)
  | [] => [[c]]
  | l :: ls => (c :: l) :: ls

/-- Python `s.split(sep)` for a one-character separator, at the code-point
level; the result is always non-empty. -/
def splitOnCharL (sep : Char) : List Char → List (List Char)
  | [] => [[]]
  | c :: rest =>
    if c = sep then [] :: splitOnCharL sep rest
    else consHead c (splitOnCharL sep rest)

/-- The `text.split("\n")` step of `_parse_sse_chunks` (proxy.py:86). -/
def pyLines (cs : List Char) : List (List Char) := splitOnCharL '\n' cs

/-- Whether a chunk's decoded text ends with a newline (no line of it spans
the following chunk boundary). -/
def endsNL : List Char → Bool
  | [] => false
  | [c] => c = '\n'
  | _ :: c :: rest => endsNL (c :: rest)

/-- JSON whitespace skipped between tokens by `json.loads`. -/
def skipWs : List Char → List Char
  | [] => []
  | c :: rest => if c = ' ' || c = '\t' || c = '\n' || c = '\r' then skipWs rest else c :: rest

/-- Scan a JSON string body up to the closing quote (escape sequences do
not occur in any input considered here and make the parse fail). -/
def scanJString : List Char → Option (List Char × List Char)
  | [] => none
  | '"' :: rest => some ([], rest)
  | '\\' :: _ => none
  | c :: rest =>
    match scanJString rest with
    | some (s, r) => some (c :: s, r)
    | none => none

/-- Scan a non-empty digit run as a natural number. -/
def scanNat (cs : List Char) : Option (Nat × List Char) :=
  let ds := cs.takeWhile Char.isDigit
  let rest := cs.dropWhile Char.isDigit
  if ds.isEmpty then none
  else some (ds.foldl (fun n c => n * 10 + (c.toNat - 48)) 0, rest)

mutual

/-- Fuel-bounded JSON value parser modelling `json.loads` on the inputs
considered here (null, booleans, integers, escape-free strings, arrays,
objects; an object keeps the last binding of a duplicated key, as Python
does). -/
def jparseV : Nat → List Char → Option (JVal × List Char)
  | 0, _ => none
  | _ + 1, [] => none
  | fuel + 1, c :: cs =>
    if c = 'n' then
      match cs with
      | 'u' :: 'l' :: 'l' :: rest => some (JVal.null, rest)
      | _ => none
    else if c = 't' then
      match cs with
      | 'r' :: 'u' :: 'e' :: rest => some (JVal.bool true, rest)
      | _ => none
    else if c = 'f' then
      match cs with
      | 'a' :: 'l' :: 's' :: 'e' :: rest => some (JVal.bool false, rest)
      | _ => none
    else if c = '"' then
      match scanJString cs with
      | some (s, r) => some (JVal.str (String.mk s), r)
      | none => none
    else if c = '[' then
      match skipWs cs with
      | ']' :: rest => some (JVal.arr [], rest)
      | cs1 => jparseArr fuel cs1 []
    else if c = '\x7b' then
      match skipWs cs with
      | '\x7d' :: rest => some (JVal.obj [], rest)
      | cs1 => jparseObj fuel cs1 []
    else if c = '-' then
      match scanNat cs with
      | some (n, rest) => some (JVal.num (-(n : Int)), rest)
      | none => none
    else if c.isDigit then
      match scanNat (c :: cs) with
      | some (n, rest) => some (JVal.num ((n : Int)), rest)
      | none => none
    else none

/-- Parse the remaining elements of a JSON array. -/
def jparseArr : Nat → List Char → List JVal → Option (JVal × List Char)
  | 0, _, _ => none
  | fuel + 1, cs, acc =>
    match jparseV fuel cs with
    | none => none
    | some (v, rest) =>
      match skipWs rest with
      | ',' :: rest2 => jparseArr fuel (skipWs rest2) (acc ++ [v])
      | ']' :: rest2 => some (JVal.arr (acc ++ [v]), rest2)
      | _ => none

/-- Parse the remaining members of a JSON object. -/
def jparseObj : Nat → List Char → List (String × JVal) → Option (JVal × List Char)
  | 0, _, _ => none
  | fuel + 1, cs, acc =>
    match cs with
    | '"' :: cs1 =>
      match scanJString cs1 with
      | none => none
      | some (key, rest) =>
        match skipWs rest with
        | ':' :: rest2 =>
          match jparseV fuel (skipWs rest2) with
          | none => none
          | some (v, rest3) =>
            match skipWs rest3 with
            | ',' :: rest4 => jparseObj fuel (skipWs rest4) (pyDictSet acc (String.mk key) v)
            | '\x7d' :: rest4 => some (JVal.obj (pyDictSet acc (String.mk key) v), rest4)
            | _ => none
        | _ => none
    | _ => none

end

/-- `json.loads` on a whole document: one value, surrounding whitespace
allowed, trailing data rejected. -/
def jloads (cs : List Char) : Option JVal :=
  match jparseV (cs.length + cs.length + 8) (skipWs cs) with
  | some (v, rest) => if (skipWs rest).isEmpty then some v else none
  | none => none

/-! SSE aggregation (`_parse_sse_chunks`, proxy.py:72-131).

The Python loop accumulates into `all_content`, `model`, `finish_reason`,
`usage`, `response_id`.  Each chunk is decoded and scanned on its own; an
exception raised while processing a line (a `data:` payload that is not a
dict, a `choices` value that is not iterable or contains non-dicts, a
non-dict `delta`, a truthy non-string `content`) is caught by the per-chunk
`except Exception: pass`, keeping all effects already applied and skipping
the remaining lines of that chunk only.  `procLine` returns the updated
accumulator together with the abort flag. -/

/-- Mutable accumulator of `_parse_sse_chunks` (proxy.py:77-81); Python
`None` initial values are `JVal.null`. -/
structure Agg where
  content : String
  model : JVal
  finish : JVal
  usage : JVal
  rid : JVal

/-- Initial accumulator (`all_content = ""`, rest `None`). -/
def emptyAgg : Agg := { content := "", model := JVal.null, finish := JVal.null, usage := JVal.null, rid := JVal.null }

/-- The increment `all_content += content` receives from one delta
(proxy.py:103-105): the empty string when `content` is falsy, the string
itself when it is a truthy string, and `none` when the `+=` would raise
`TypeError` (truthy non-string). -/
def contentAdd (delta : JVal) : Option String :=
  if truthy (jgetD delta "content" (JVal.str "")) then
    match jgetD delta "content" (JVal.str "") with
    | JVal.str s => some s
    | _ => none
  else some ""

/-- Process one choice given its `delta` value (proxy.py:102-107): a
non-dict delta raises at `delta.get`; otherwise append the content
increment (raising on a truthy non-string) and then capture a truthy
`finish_reason`. -/
def procChoiceDelta (st : Agg) (c delta : JVal) : Agg × Bool :=
  match delta with
  | JVal.obj _ =>
    match contentAdd delta with
    | none => (st, true)
    | some add =>
      let st1 := { st with content := st.content ++ add }
      (if truthy (jget c "finish_reason") then { st1 with finish := jget c "finish_reason" }
       else st1, false)
  | _ => (st, true)

/-- Process one element of `choices` (proxy.py:101-107): a non-dict choice
raises at `choice.get`; otherwise process its `delta` (default empty
dict). -/
def procChoice (st : Agg) (c : JVal) : Agg × Bool :=
  match c with
  | JVal.obj _ => procChoiceDelta st c (jgetD c "delta" (JVal.obj []))
  | _ => (st, true)

/-- Fold `procChoice` over a choices list, stopping at the first raise. -/
def procChoiceList (st : Agg) : List JVal → Agg × Bool
  | [] => (st, false)
  | c :: cs =>
    match procChoice st c with
    | (st1, true) => (st1, true)
    | (st1, false) => procChoiceList st1 cs

/-- Iterate Python's `for choice in choices` over an arbitrary `choices`
value: a list iterates its elements; an empty string or empty dict yields
no iterations; any other non-list raises on entry or on its first element. -/
def procChoices (st : Agg) (choices : JVal) : Agg × Bool :=
  match choices with
  | JVal.arr cs => procChoiceList st cs
  | JVal.str s => if s == "" then (st, false) else (st, true)
  | JVal.obj fs => if fs.isEmpty then (st, false) else (st, true)
  | _ => (st, true)

/-- The `choices` walk and `usage` capture of one parsed event
(proxy.py:100-111), after `id` and `model` have been taken. -/
def procDataCore (st : Agg) (data : JVal) : Agg × Bool :=
  match procChoices st (jgetD data "choices" (JVal.arr [])) with
  | (st3, true) => (st3, true)
  | (st3, false) =>
    (if truthy (jget data "usage") then { st3 with usage := jget data "usage" } else st3, false)

/-- Process one parsed `data:` event (proxy.py:93-111): capture `id` and
`model` once, walk `choices`, then capture a truthy `usage`.  A non-dict
event raises before any effect. -/
def procData (st : Agg) (data : JVal) : Agg × Bool :=
  match data with
  | JVal.obj _ =>
    let st1 := if truthy st.rid then st else { st with rid := jget data "id" }
    let st2 := if truthy st1.model then st1 else { st1 with model := jget data "model" }
    procDataCore st2 data
  | _ => (st, true)

/-- Payload of a line of the exact shape `data: <payload>`. -/
def dataPayload : List Char → Option (List Char)
  | 'd' :: 'a' :: 't' :: 'a' :: ':' :: ' ' :: rest => some rest
  | _ => none

/-- Process one line of a chunk (proxy.py:87-113): strip, keep only
`data: ` lines, skip the `[DONE]` sentinel and JSON parse failures, feed
parsed events to `procData`. -/
def procLine (st : Agg) (rawLine : List Char) : Agg × Bool :=
  match dataPayload (pyStrip rawLine) with
  | none => (st, false)
  | some ds =>
    if ds = "[DONE]".data then (st, false)
    else
      match jloads ds with
      | none => (st, false)
      | some data => procData st data

/-- Whether processing this line raises (independent of the accumulator;
see `procLine_snd_indep`). -/
def lineAborts (l : List Char) : Bool := (procLine emptyAgg l).2

/-- Fold `procLine` over the lines of one chunk, skipping the rest of the
chunk after a raise (the per-chunk `except Exception: pass`). -/
def runLines (st : Agg) : List (List Char) → Agg
  | [] => st
  | l :: ls =>
    match procLine st l with
    | (st1, true) => st1
    | (st1, false) => runLines st1 ls

/-- Process one chunk: decode (identity on text), split on newlines, scan. -/
def runChunk (st : Agg) (c : List Char) : Agg := runLines st (pyLines c)

/-- Process the accumulated chunk list in order. -/
def runChunks (st : Agg) : List (List Char) → Agg
  | [] => st
  | c :: cs => runChunks (runChunk st c) cs

/-- Whether every line of a chunk processes without raising. -/
def chunkOk (c : List Char) : Bool := (pyLines c).all (fun l => !(lineAborts l))

/-- The state transformation of one line (the abort flag discarded). -/
def lineStep (st : Agg) (l : List Char) : Agg := (procLine st l).1

/-- `_parse_sse_chunks` (proxy.py:72-131): scan all chunks, then either
`None` (nothing recovered) or the reconstructed response object. -/
def parse_sse_chunks (chunks : List (List Char)) : Option JVal :=
  let st := runChunks emptyAgg chunks
  if !truthy (JVal.str st.content) && !truthy st.rid then none
  else
    some (JVal.obj [
      ("id", st.rid),
      ("model", st.model),
      ("choices", JVal.arr [JVal.obj [
        ("index", JVal.num 0),
        ("message", JVal.obj [("role", JVal.str "assistant"), ("content", JVal.str st.content)]),
        ("finish_reason", st.finish)]]),
      ("usage", st.usage),
      ("_streamed", JVal.bool true)])

/-! Provider matching (config.py:14-48, 311-331). -/

/-- ProviderPattern (config.py:14-23). -/
structure ProviderPattern where
  name : String
  path_patterns : List String
  host_patterns : List String
  is_regex : Bool

/-- `ProviderPattern.matches_path` (config.py:25-39); `search` stands for
`re.search` on (pattern, subject). -/
def ProviderPattern.matches_path (p : ProviderPattern) (search : String → String → Bool)
    (path : String) : Bool :=
  if path == "" then false
  else
    let normalized := if strStartsWith path "/" then path else "/" ++ path
    p.path_patterns.any fun pattern =>
      if p.is_regex then search pattern normalized
      else strEndsWith normalized pattern
        || strEndsWith (String.mk ((splitOnCharL '?' normalized.data).headD normalized.data)) pattern

/-- `ProviderPattern.matches_host` (config.py:41-48); `search_ci` stands for
case-insensitive `re.search`. -/
def ProviderPattern.matches_host (p : ProviderPattern) (search_ci : String → String → Bool)
    (host : String) : Bool :=
  if host == "" || p.host_patterns.isEmpty then true
  else p.host_patterns.any fun pattern => search_ci pattern host

/-- The per-provider test applied by `Config.is_capturable`
(config.py:327-329): path match AND host match. -/
def ProviderPattern.matches (p : ProviderPattern) (search search_ci : String → String → Bool)
    (path host : String) : Bool :=
  p.matches_path search path && p.matches_host search_ci host

/-- Path side of the claimed invariant, as the spec words it: some path
pattern matches the leading-slash-normalized path (no empty-path guard). -/
def claim_path_match (p : ProviderPattern) (search : String → String → Bool)
    (path : String) : Bool :=
  let normalized := if strStartsWith path "/" then path else "/" ++ path
  p.path_patterns.any fun pattern =>
    if p.is_regex then search pattern normalized
    else strEndsWith normalized pattern
      || strEndsWith (String.mk ((splitOnCharL '?' normalized.data).headD normalized.data)) pattern

/-- Host side of the claimed invariant: the host list is empty or some host
pattern matches the given host. -/
def claim_host_match (p : ProviderPattern) (search_ci : String → String → Bool)
    (host : String) : Bool :=
  p.host_patterns.isEmpty || p.host_patterns.any fun pattern => search_ci pattern host

/-- Config (config.py:311-317). -/
structure Config where
  providers : List ProviderPattern
  capture_all_requests : Bool
  debug : Bool

/-- `Config.is_capturable` (config.py:319-331). -/
def Config.is_capturable (cfg : Config) (search search_ci : String → String → Bool)
    (path host : String) : Bool × Option String :=
  if cfg.capture_all_requests then (true, some "custom")
  else
    match cfg.providers.find? (fun p => p.matches search search_ci path host) with
    | some p => (true, some p.name)
    | none => (false, none)

/-- Substring containment on char lists. -/
def listIsInfixOf : List Char → List Char → Bool
  | needle, [] => needle.isEmpty
  | needle, c :: rest => needle.isPrefixOf (c :: rest) || listIsInfixOf needle rest

/-- `re.search` for patterns free of regex metacharacters: substring
containment. -/
def lit_search (pattern s : String) : Bool := listIsInfixOf pattern.data s.data

/-- The built-in Anthropic provider (config.py:94-104). -/
def anthropic_provider : ProviderPattern :=
  { name := "anthropic"
    path_patterns := ["/v1/messages", "/v1/complete"]
    host_patterns := ["api\\.anthropic\\.com"]
    is_regex := true }

/-! Trace context extraction (trace_context.py). -/

/-- TraceContext (trace_context.py:15-20).  The Python fields are
dynamically typed (`None`, header strings, or raw body values), so all
three are `JVal` with `JVal.null` for `None`. -/
structure TraceContext where
  trace_id : JVal
  span_id : JVal
  parent_span_id : JVal

/-- Lower-case hex digit, the character class of `W3C_TRACEPARENT_REGEX`
(trace_context.py:25-27); the pattern is applied to a lowercased string. -/
def isHexLower (c : Char) : Bool := c.isDigit || ('a' ≤ c && c ≤ 'f')

/-- `_parse_w3c_traceparent` (trace_context.py:30-37).  The anchored regex
`XX-<32 hex>-<16 hex>-XX` on the stripped, lowercased value is decided by
splitting on `-` (hex excludes `-`, so the decompositions coincide). -/
def parse_w3c_traceparent (value : String) : Option String × Option String :=
  if value == "" then (none, none)
  else
    match (splitOnCharL '-' ((String.mk (pyStrip value.data)).toLower).data).map String.mk with
    | [a, b, c, d] =>
      if a.length == 2 && b.length == 32 && c.length == 16 && d.length == 2
          && a.data.all isHexLower && b.data.all isHexLower
          && c.data.all isHexLower && d.data.all isHexLower then
        (some b, some c)
      else (none, none)
    | _ => (none, none)

/-- Header-dict normalization `{k.lower(): v for k, v in headers.items()}`
(trace_context.py:43). -/
def norm_headers (headers : List (String × String)) : List (String × String) :=
  headers.foldl (fun d kv => pyDictSet d kv.1.toLower kv.2) []

/-- First header among `keys` that is present with a truthy (non-empty)
value (the fallback loops of trace_context.py:53-64). -/
def first_header_value (h : List (String × String)) : List String → Option String
  | [] => none
  | k :: ks =>
    match pyDictGet h k with
    | some v => if v == "" then first_header_value h ks else some v
    | none => first_header_value h ks

/-- Fallback trace-id header names, in order (trace_context.py:54). -/
def trace_header_keys : List String := ["x-trace-id", "x-request-id", "x-correlation-id", "x-b3-traceid"]

/-- Fallback parent-span header names, in order (trace_context.py:61). -/
def parent_header_keys : List String := ["x-parent-id", "x-b3-parentspanid", "x-parent-span-id"]

/-- Lift an optional header string into the dynamically typed field. -/
def optStrToJ : Option String → JVal
  | none => JVal.null
  | some s => JVal.str s

/-- The (trace_id, parent_span_id) pair obtained from the `traceparent`
header when present (trace_context.py:49-50); absent behaves as both
`None`. -/
def traceparent_pair (h : List (String × String)) : Option String × Option String :=
  match pyDictGet h "traceparent" with
  | some v => parse_w3c_traceparent v
  | none => (none, none)

/-- `_extract_from_headers` (trace_context.py:40-73); `fresh_span` is the
`uuid4().hex[:16]` generated for this call. -/
def extract_from_headers (fresh_span : String) (headers : List (String × String)) : TraceContext :=
  let h := norm_headers headers
  let tp := traceparent_pair h
  let trace_id :=
    match tp.1 with
    | some t => if t == "" then (first_header_value h trace_header_keys).map (pyTake 32) else some t
    | none => (first_header_value h trace_header_keys).map (pyTake 32)
  let parent :=
    match tp.2 with
    | some t => if t == "" then (first_header_value h parent_header_keys).map (pyTake 16) else some t
    | none => (first_header_value h parent_header_keys).map (pyTake 16)
  { trace_id := optStrToJ trace_id
    span_id := JVal.str fresh_span
    parent_span_id := optStrToJ parent }

/-- Truthiness of an optional Python value. -/
def optTruthy : Option JVal → Bool
  | none => false
  | some v => truthy v

/-- `_extract_from_body` (trace_context.py:76-116); `fresh_span` is the
`uuid4().hex[:16]` generated inside it (the caller discards it). -/
def extract_from_body (fresh_span : String) (body : Option JVal) : Option TraceContext :=
  match body with
  | some (JVal.obj bfs) =>
    let b := JVal.obj bfs
    let metadata := jgetD b "metadata" (JVal.obj [])
    let trace_id0 : JVal :=
      match metadata with
      | JVal.obj _ => pyOr (jget metadata "trace_id") (jget metadata "traceId")
      | _ => JVal.null
    let parent0 : JVal :=
      match metadata with
      | JVal.obj _ =>
        pyOr (pyOr (jget metadata "parent_id") (jget metadata "parentId")) (jget metadata "span_id")
      | _ => JVal.null
    let trace_id1 : JVal :=
      if truthy trace_id0 then trace_id0
      else
        let run_id := pyOr (jget b "run_id") (jget b "runId")
        if truthy run_id then JVal.str (pyTake 32 (pyStr run_id)) else JVal.null
    let trace_id2 : JVal :=
      if truthy trace_id1 then trace_id1
      else
        let session_id :=
          pyOr (pyOr (pyOr (pyOr (pyOr (jget b "session_id") (jget b "sessionId"))
            (jget b "conversation_id")) (jget b "conversationId")) (jget b "thread_id"))
            (jget b "threadId")
        if truthy session_id then JVal.str (pyTake 32 (pyStr session_id)) else JVal.null
    if truthy trace_id2 then
      some { trace_id := trace_id2, span_id := JVal.str fresh_span, parent_span_id := parent0 }
    else none
  | _ => none

/-- `extract_trace_context` (trace_context.py:119-149); the three `fresh_*`
parameters are the random identifiers generated during the call. -/
def extract_trace_context (fresh_span fresh_span_body fresh_trace : String)
    (headers : List (String × String)) (body : Option JVal) : TraceContext :=
  let ctx := extract_from_headers fresh_span headers
  let ctx1 :=
    if !truthy ctx.trace_id && optTruthy body then
      match extract_from_body fresh_span_body body with
      | some bctx =>
        if truthy bctx.trace_id then
          { ctx with
            trace_id := bctx.trace_id
            parent_span_id :=
              if truthy bctx.parent_span_id && !truthy ctx.parent_span_id then bctx.parent_span_id
              else ctx.parent_span_id }
        else ctx
      | none => ctx
    else ctx
  if !truthy ctx1.trace_id then { ctx1 with trace_id := JVal.str fresh_trace } else ctx1

/-- The trace-id source cascade as the claim states it: a well-formed
`traceparent`, else the first truthy fallback header truncated to 32
characters, else the body fields, else the freshly generated id. -/
def claim_trace_id (fresh_span_body fresh_trace : String)
    (headers : List (String × String)) (body : Option JVal) : JVal :=
  match (traceparent_pair (norm_headers headers)).1 with
  | some t => JVal.str t
  | none =>
    match first_header_value (norm_headers headers) trace_header_keys with
    | some v => JVal.str (pyTake 32 v)
    | none =>
      match (if optTruthy body then extract_from_body fresh_span_body body else none) with
      | some bctx => if truthy bctx.trace_id then bctx.trace_id else JVal.str fresh_trace
      | none => JVal.str fresh_trace

/-! Log store (dashboard.py:14-127). -/

/-- LogEntry (dashboard.py:19-32); exactly these twelve fields. -/
structure LogEntry where
  id : String
  timestamp : String
  method : String
  path : String
  model : Option String
  status_code : Int
  latency_ms : Int
  upstream : String
  trace_url : Option String
  trace_pending : Bool
  request_body : Option JVal
  response_body : Option JVal

/-- Events broadcast to SSE subscriber queues (dashboard.py:79-83, 95-100,
122-127). -/
inductive DashEvent where
  | log (entry : LogEntry)
  | log_update (entry : LogEntry)
  | trace_update (id : String) (trace_url : Option String)

/-- Module state of dashboard.py: the ring `_logs` (ids of the shared
record objects), the id index `_logs_by_id`, and one bounded queue per SSE
subscriber. -/
structure DashboardState where
  logs : List String
  logs_by_id : List (String × LogEntry)
  subscribers : List (List DashEvent)

/-- Initial module state (dashboard.py:14-16). -/
def empty_store : DashboardState := { logs := [], logs_by_id := [], subscribers := [] }

/-- `deque(maxlen=100).append`: append and drop from the left down to 100. -/
def deque_append_maxlen (l : List String) (x : String) : List String :=
  let l2 := l ++ [x]
  if 100 < l2.length then l2.drop (l2.length - 100) else l2

/-- The trim loop of `add_log` (dashboard.py:75-77): while the id index
holds more than 100 entries, delete the oldest. -/
def dict_trim_oldest : List (String × LogEntry) → List (String × LogEntry)
  | [] => []
  | kv :: rest => if 100 < (kv :: rest).length then dict_trim_oldest rest else kv :: rest

/-- `asyncio.Queue(maxsize=50).put_nowait` with `except QueueFull: pass`:
drop the event when the queue is full. -/
def queue_put_nowait (q : List DashEvent) (ev : DashEvent) : List DashEvent :=
  if 50 ≤ q.length then q else q ++ [ev]

/-- Python `round(x, 1)` on the latency; floats are modelled as integers,
on which it is the identity. -/
def round1 (x : Int) : Int := x

/-- `add_log` (dashboard.py:43-85).  `entry_id` is the generated
`str(uuid4())[:8]` and `timestamp` the formatted wall-clock time, both
injected.  These nine data parameters are exactly the keyword parameters
the function declares. -/
def add_log (st : DashboardState) (entry_id timestamp : String)
    (path : String) (model : Option String) (status_code : Int) (latency_ms : Int)
    (upstream : String) (trace_url : Option String) (trace_pending : Bool)
    (request_body response_body : Option JVal) : DashboardState × String :=
  let entry : LogEntry :=
    { id := entry_id, timestamp := timestamp, method := "POST", path := path, model := model
      status_code := status_code, latency_ms := round1 latency_ms, upstream := upstream
      trace_url := trace_url, trace_pending := trace_pending
      request_body := request_body, response_body := response_body }
  let logs := deque_append_maxlen st.logs entry_id
  let by_id := dict_trim_oldest (pyDictSet st.logs_by_id entry_id entry)
  let subs := st.subscribers.map (fun q => queue_put_nowait q (DashEvent.log entry))
  ({ logs := logs, logs_by_id := by_id, subscribers := subs }, entry_id)

/-- `update_trace_url` (dashboard.py:88-100): mutate the record found in
the id index, else do nothing. -/
def update_trace_url (st : DashboardState) (entry_id : String) (trace_url : Option String) :
    DashboardState :=
  match pyDictGet st.logs_by_id entry_id with
  | none => st
  | some entry =>
    let entry1 := { entry with trace_url := trace_url, trace_pending := false }
    { st with
      logs_by_id := pyDictSet st.logs_by_id entry_id entry1
      subscribers := st.subscribers.map
        (fun q => queue_put_nowait q (DashEvent.trace_update entry_id trace_url)) }

/-- `update_log_entry` (dashboard.py:103-127): apply the non-`None` field
updates to the record found in the id index, else return unchanged. -/
def update_log_entry (st : DashboardState) (entry_id : String)
    (response_body : Option JVal) (latency_ms : Option Int) (status_code : Option Int) :
    DashboardState :=
  match pyDictGet st.logs_by_id entry_id with
  | none => st
  | some entry =>
    let e1 := match response_body with
      | some rb => { entry with response_body := some rb }
      | none => entry
    let e2 := match latency_ms with
      | some lat => { e1 with latency_ms := round1 lat }
      | none => e1
    let e3 := match status_code with
      | some sc => { e2 with status_code := sc }
      | none => e2
    { st with
      logs_by_id := pyDictSet st.logs_by_id entry_id e3
      subscribers := st.subscribers.map (fun q => queue_put_nowait q (DashEvent.log_update e3)) }

/-- One Log Store operation, for sequences of store mutations. -/
inductive StoreOp where
  | add (entry_id timestamp path : String) (model : Option String)
      (status_code latency_ms : Int) (upstream : String) (trace_url : Option String)
      (trace_pending : Bool) (request_body response_body : Option JVal)
  | upd_trace (entry_id : String) (trace_url : Option String)
  | upd_entry (entry_id : String) (response_body : Option JVal)
      (latency_ms status_code : Option Int)

/-- Apply one store operation. -/
def apply_op (st : DashboardState) : StoreOp → DashboardState
  | StoreOp.add entry_id timestamp path model status_code latency_ms upstream trace_url
      trace_pending request_body response_body =>
    (add_log st entry_id timestamp path model status_code latency_ms upstream trace_url
      trace_pending request_body response_body).1
  | StoreOp.upd_trace entry_id trace_url => update_trace_url st entry_id trace_url
  | StoreOp.upd_entry entry_id response_body latency_ms status_code =>
    update_log_entry st entry_id response_body latency_ms status_code

/-- Apply a sequence of store operations in order. -/
def run_ops (st : DashboardState) : List StoreOp → DashboardState
  | [] => st
  | op :: ops => run_ops (apply_op st op) ops

/-! Streaming engine pieces (proxy.py:232-356). -/

/-- The in-progress placeholder response body of the streaming pre-log
(proxy.py:265): `{"_streaming": true, "_status": "in_progress"}`. -/
def streaming_placeholder : JVal :=
  JVal.obj [("_streaming", JVal.bool true), ("_status", JVal.str "in_progress")]

/-- Status code and headers of the upstream streaming response, as recorded
into the per-request state by `stream_generator` (proxy.py:291-292). -/
structure UpstreamStreamMeta where
  status_code : Int
  headers : List (String × String)
deriving DecidableEq

/-- Status line and headers of the response handed to the client. -/
structure ClientStreamMeta where
  status_code : Int
  media_type : String
  headers : List (String × String)
deriving DecidableEq

/-- The response metadata `_do_streaming_proxy` returns to the client
(proxy.py:348-356): a `StreamingResponse` built before any upstream contact,
with the default status 200, `media_type="text/event-stream"` and a literal
header dict; no recorded upstream data flows into it. -/
def streaming_client_meta (_u : UpstreamStreamMeta) : ClientStreamMeta :=
  { status_code := 200
    media_type := "text/event-stream"
    headers := [("Cache-Control", "no-cache"), ("Connection", "keep-alive"), ("X-Accel-Buffering", "no")] }

/-- The `finally` block of `stream_generator` for a captured entry
(proxy.py:309-328): parse the accumulated chunks, attach the timing keys to
a truthy reconstruction, then `update_log_entry` with the reconstruction,
`latency_ms = ttfb` and the recorded status code. -/
def stream_finalize (st : DashboardState) (entry_id : String) (chunks : List (List Char))
    (ttfb total_ms : Int) (status_code : Int) : DashboardState :=
  let resp_json := parse_sse_chunks chunks
  let resp_json1 :=
    match resp_json with
    | some j =>
      if truthy j then
        some (jset (jset j "_ttfb_ms" (JVal.num ttfb)) "_total_ms" (JVal.num total_ms))
      else some j
    | none => none
  update_log_entry st entry_id resp_json1 (some ttfb) (some status_code)

/-- A `data: ` line whose JSON payload is split across two chunks: scanned
per chunk neither piece parses, while the concatenation does. -/
def c5_chunks : List (List Char) := ["data: \x7b\"id\"".data, ":\"x\"\x7d\n".data]

/-- Two newline-terminated, well-formed SSE chunks. -/
def c5_good_chunks : List (List Char) :=
  ["data: \x7b\"id\":\"a\"\x7d\n".data, "data: [DONE]\n".data]

/-- The record created by the streaming pre-log for a concrete captured
streaming request. -/
def c6_entry : LogEntry :=
  { id := "e1", timestamp := "12:00:00", method := "POST", path := "/v1/chat/completions"
    model := some "gpt-4o-mini", status_code := 200, latency_ms := 0
    upstream := "https://api.openai.com/v1/chat/completions", trace_url := none
    trace_pending := true, request_body := none, response_body := some streaming_placeholder }

/-- The store holding exactly that streaming record. -/
def c6_store : DashboardState :=
  (add_log empty_store "e1" "12:00:00" "/v1/chat/completions" (some "gpt-4o-mini") 200 0
    "https://api.openai.com/v1/chat/completions" none true none (some streaming_placeholder)).1

/-! Call compatibility of proxy.py with dashboard.add_log, and the
dashboard route table. -/

/-- The declared keyword-only parameters of `add_log` (dashboard.py:43-54);
the function has no var-keyword parameter. -/
def add_log_kw_params : List String :=
  ["path", "model", "status_code", "latency_ms", "upstream", "trace_url", "trace_pending",
   "request_body", "response_body"]

/-- The keyword arguments `_do_proxy` passes to `dashboard_add_log`
(proxy.py:188-203). -/
def do_proxy_add_log_kwargs : List String :=
  ["path", "model", "status_code", "latency_ms", "upstream", "trace_url", "trace_pending",
   "request_body", "response_body", "provider", "trace_id", "span_id", "parent_span_id",
   "debug_mode"]

/-- The keyword arguments `_do_streaming_proxy` passes to
`dashboard_add_log` (proxy.py:256-271). -/
def do_streaming_add_log_kwargs : List String :=
  ["path", "model", "status_code", "latency_ms", "upstream", "trace_url", "trace_pending",
   "request_body", "response_body", "provider", "trace_id", "span_id", "parent_span_id",
   "debug_mode"]

/-- The fields of the `LogEntry` dataclass (dashboard.py:19-32). -/
def log_entry_fields : List String :=
  ["id", "timestamp", "method", "path", "model", "status_code", "latency_ms", "upstream",
   "trace_url", "trace_pending", "request_body", "response_body"]

/-- Python keyword-call semantics: calling a function whose named
parameters are `params` (and which takes no `**kwargs`) with keyword
arguments `kwargs` raises `TypeError` iff some keyword is not a declared
parameter. -/
def py_kw_call_raises (params kwargs : List String) : Bool :=
  !(kwargs.all (fun k => params.contains k))

/-- Result of dispatching one origin-form request path. -/
inductive RouteResult where
  | dashboard_events
  | dashboard_page
  | not_found
  | forwarded (path : String)
deriving DecidableEq

/-- The two paths registered by the dashboard router, in registration order
(dashboard.py:154-167); these are all of its routes. -/
def dashboard_routes : List String := ["/__weaverun__/events", "/__weaverun__"]

/-- Request dispatch for origin-form paths: FastAPI serves a registered
dashboard route first, otherwise the catch-all `proxy` handler
(proxy.py:371-386) receives the path without its leading slash and returns
404 for the reserved `__weaverun__` prefix before resolving an upstream. -/
def route_request (p : String) : RouteResult :=
  if p == "/__weaverun__/events" then RouteResult.dashboard_events
  else if p == "/__weaverun__" then RouteResult.dashboard_page
  else
    let path := if strStartsWith p "/" then String.mk (p.data.drop 1) else p
    if strStartsWith path "__weaverun__" then RouteResult.not_found
    else RouteResult.forwarded path

/-! Helper lemmas. -/

theorem pyDictGet_set_self_of_any {α : Type} (d : List (String × α)) (k : String) (v : α)
    (h : d.any (fun kv => kv.1 == k) = true) :
    (d.map (fun kv => if kv.1 == k then (k, v) else kv)).find? (fun kv => kv.1 == k) = some (k, v) := by
  induction d with
  | nil => simp at h
  | cons kv rest ih =>
    simp only [List.map_cons]
    by_cases hk : kv.1 == k
    · rw [if_pos hk, List.find?_cons_of_pos _ (by simp)]
    · have hk2 : (kv.1 == k) = false := by simpa using hk
      rw [if_neg hk, List.find?_cons_of_neg _ (by simp [hk2])]
      apply ih
      simpa [List.any_cons, hk2] using h

theorem pyDictGet_set_self_of_not_any {α : Type} (d : List (String × α)) (k : String) (v : α)
    (h : d.any (fun kv => kv.1 == k) = false) :
    (d ++ [(k, v)]).find? (fun kv => kv.1 == k) = some (k, v) := by
  induction d with
  | nil => rw [List.nil_append, List.find?_cons_of_pos _ (by simp)]
  | cons kv rest ih =>
    simp only [List.any_cons, Bool.or_eq_false_iff] at h
    rw [List.cons_append, List.find?_cons_of_neg _ (by simp [h.1]), ih h.2]

theorem pyDictGet_set_self {α : Type} (d : List (String × α)) (k : String) (v : α) :
    pyDictGet (pyDictSet d k v) k = some v := by
  unfold pyDictGet pyDictSet
  by_cases h : d.any (fun kv => kv.1 == k)
  · rw [if_pos h, pyDictGet_set_self_of_any d k v h]
    rfl
  · rw [if_neg h, pyDictGet_set_self_of_not_any d k v (by simp only [Bool.not_eq_true] at h; exact h)]
    rfl

theorem pyDictSet_length_of_get {α : Type} (d : List (String × α)) (k : String) (v v0 : α)
    (h : pyDictGet d k = some v0) : (pyDictSet d k v).length = d.length := by
  unfold pyDictSet
  have hany : d.any (fun kv => kv.1 == k) = true := by
    unfold pyDictGet at h
    cases hf : d.find? (fun kv => kv.1 == k) with
    | none => rw [hf] at h; simp at h
    | some kv =>
      have hmem := List.mem_of_find?_eq_some hf
      have hp := List.find?_some hf
      exact List.any_eq_true.mpr ⟨kv, hmem, by simpa using hp⟩
  simp [hany]

theorem dict_trim_oldest_length (d : List (String × LogEntry)) :
    (dict_trim_oldest d).length = min d.length 100 := by
  induction d with
  | nil => simp [dict_trim_oldest]
  | cons kv rest ih =>
    simp only [dict_trim_oldest]
    by_cases h : 100 < (kv :: rest).length
    · rw [if_pos h, ih]
      simp only [List.length_cons] at h ⊢
      omega
    · rw [if_neg h]
      simp only [List.length_cons] at h ⊢
      omega

theorem deque_append_maxlen_length (l : List String) (x : String) :
    (deque_append_maxlen l x).length ≤ 100 := by
  unfold deque_append_maxlen
  by_cases h : 100 < (l ++ [x]).length
  · simp only [if_pos h, List.length_drop]
    omega
  · simp only [if_neg h]
    omega

theorem pyTake_ne_empty {s : String} (n : Nat) (hn : 0 < n) (h : s ≠ "") : pyTake n s ≠ "" := by
  cases s with
  | mk l =>
    unfold pyTake
    intro hc
    apply h
    have hl : l.take n = [] := by
      have h2 := congrArg String.data hc
      simpa using h2
    have hnil : l = [] := by
      cases l with
      | nil => rfl
      | cons a as =>
        cases n with
        | zero => omega
        | succ m => simp [List.take] at hl
    simp [hnil]

theorem first_header_value_ne_empty (h : List (String × String)) (keys : List String) (v : String)
    (hv : first_header_value h keys = some v) : v ≠ "" := by
  induction keys with
  | nil => simp [first_header_value] at hv
  | cons k ks ih =>
    rw [first_header_value] at hv
    cases hg : pyDictGet h k with
    | none =>
      rw [hg] at hv
      exact ih hv
    | some w =>
      rw [hg] at hv
      have hv2 : (if (w == "") = true then first_header_value h ks else some w) = some v := hv
      by_cases hw : w == ""
      · rw [if_pos hw] at hv2
        exact ih hv2
      · rw [if_neg hw] at hv2
        have hwv : w = v := by injection hv2
        intro hc
        exact hw (by simp [← hwv, hwv ▸ hc])

theorem parse_w3c_trace_ne_empty {value t : String} {p : Option String}
    (h : parse_w3c_traceparent value = (some t, p)) : t ≠ "" := by
  unfold parse_w3c_traceparent at h
  by_cases hv : value == ""
  · rw [if_pos hv] at h
    simp at h
  · rw [if_neg hv] at h
    split at h
    · rename_i a b c d hmatch
      split at h
      · rename_i hguard
        have hb : b = t := by
          have h1 := congrArg Prod.fst h
          simpa using h1
        subst hb
        simp only [Bool.and_eq_true, beq_iff_eq] at hguard
        obtain ⟨⟨⟨⟨⟨⟨⟨hA, hB⟩, hC⟩, hD⟩, hE⟩, hF⟩, hG⟩, hH⟩ := hguard
        intro hc
        rw [hc] at hB
        exact absurd hB (by decide)
      · simp at h
    · simp at h

/-- C1: the claim that no request-handling path raises fails on the code:
the capture-logging step of `_do_proxy` and of `_do_streaming_proxy` calls
`dashboard.add_log` with five keyword arguments (`provider`, `trace_id`,
`span_id`, `parent_span_id`, `debug_mode`) the function does not declare,
so every captured call raises `TypeError` out of the handler. -/
theorem add_log_call_raises_type_error :
    py_kw_call_raises add_log_kw_params do_proxy_add_log_kwargs = true ∧
    py_kw_call_raises add_log_kw_params do_streaming_add_log_kwargs = true ∧
    do_proxy_add_log_kwargs.filter (fun k => !add_log_kw_params.contains k) =
      ["provider", "trace_id", "span_id", "parent_span_id", "debug_mode"] := by
  decide

/-- C2: the record cannot carry the provider name, the trace-context
fields or the debug flag: the `LogEntry` dataclass has none of these
fields, and the `add_log` call that would pass them raises `TypeError`. -/
theorem log_entry_missing_capture_fields :
    log_entry_fields.contains "provider" = false ∧
    log_entry_fields.contains "trace_id" = false ∧
    log_entry_fields.contains "span_id" = false ∧
    log_entry_fields.contains "parent_span_id" = false ∧
    log_entry_fields.contains "debug_mode" = false ∧
    py_kw_call_raises add_log_kw_params do_proxy_add_log_kwargs = true := by
  decide

/-- C3 counterexample: for the upstream streaming response with status 404
and a distinctive header, the response returned to the client has status
200 and does not carry that header, so the claim that the upstream status
code and headers are the ones returned to the client is false. -/
theorem streaming_client_meta_counterexample :
    (streaming_client_meta { status_code := 404, headers := [("x-upstream-only", "1")] }).status_code ≠ 404 ∧
    (streaming_client_meta { status_code := 404, headers := [("x-upstream-only", "1")] }).headers ≠
      [("x-upstream-only", "1")] := by
  decide

/-- C3 amended: the response handed to the client by `_do_streaming_proxy`
is independent of the upstream streaming response: always status 200,
`text/event-stream`, and the fixed three-header set. -/
theorem streaming_client_meta_fixed (u v : UpstreamStreamMeta) :
    streaming_client_meta u = streaming_client_meta v ∧
    (streaming_client_meta u).status_code = 200 ∧
    (streaming_client_meta u).media_type = "text/event-stream" ∧
    (streaming_client_meta u).headers =
      [("Cache-Control", "no-cache"), ("Connection", "keep-alive"), ("X-Accel-Buffering", "no")] :=
  ⟨rfl, rfl, rfl, rfl⟩

/-- C7 counterexample: `/__weaverun__/config` is not a dashboard route; it
falls through to the proxy catch-all, which answers 404 for the reserved
prefix, so the claim that the dashboard serves it is false. -/
theorem config_route_not_served :
    route_request "/__weaverun__/config" = RouteResult.not_found ∧
    dashboard_routes.contains "/__weaverun__/config" = false := by
  decide

/-- C7 amended: the dashboard registers exactly two read-only endpoints,
`/__weaverun__` and `/__weaverun__/events`; a request for
`/__weaverun__/config` is treated as an unknown reserved path and receives
404. -/
theorem dashboard_route_table :
    route_request "/__weaverun__" = RouteResult.dashboard_page ∧
    route_request "/__weaverun__/events" = RouteResult.dashboard_events ∧
    route_request "/__weaverun__/config" = RouteResult.not_found ∧
    dashboard_routes = ["/__weaverun__/events", "/__weaverun__"] := by
  decide

/-- C10: calling `update_trace_url` or `update_log_entry` with an id that
is not in the id index leaves the store (records, ring and every
subscriber queue) unchanged and broadcasts nothing. -/
theorem update_unknown_id_is_noop (st : DashboardState) (entry_id : String)
    (trace_url : Option String) (response_body : Option JVal) (latency_ms status_code : Option Int)
    (h : pyDictGet st.logs_by_id entry_id = none) :
    update_trace_url st entry_id trace_url = st ∧
    update_log_entry st entry_id response_body latency_ms status_code = st := by
  unfold update_trace_url update_log_entry
  rw [h]
  exact ⟨rfl, rfl⟩

/-- C10 witness: the empty store at a concrete unknown id. -/
theorem update_unknown_id_is_noop_witness :
    pyDictGet empty_store.logs_by_id "deadbeef" = none ∧
    (update_trace_url empty_store "deadbeef" none = empty_store ∧
     update_log_entry empty_store "deadbeef" none none none = empty_store) :=
  ⟨rfl, update_unknown_id_is_noop empty_store "deadbeef" none none none none rfl⟩

theorem apply_op_preserves_bounds (st : DashboardState) (op : StoreOp)
    (h1 : st.logs.length ≤ 100) (h2 : st.logs_by_id.length ≤ 100) :
    (apply_op st op).logs.length ≤ 100 ∧ (apply_op st op).logs_by_id.length ≤ 100 := by
  cases op with
  | add entry_id timestamp path model status_code latency_ms upstream trace_url trace_pending
      request_body response_body =>
    refine ⟨deque_append_maxlen_length _ _, ?_⟩
    simp only [apply_op, add_log]
    rw [dict_trim_oldest_length]
    omega
  | upd_trace entry_id trace_url =>
    simp only [apply_op]
    unfold update_trace_url
    cases hg : pyDictGet st.logs_by_id entry_id with
    | none => exact ⟨h1, h2⟩
    | some e =>
      refine ⟨h1, ?_⟩
      simpa [pyDictSet_length_of_get st.logs_by_id entry_id _ e hg] using h2
  | upd_entry entry_id response_body latency_ms status_code =>
    simp only [apply_op]
    unfold update_log_entry
    cases hg : pyDictGet st.logs_by_id entry_id with
    | none => exact ⟨h1, h2⟩
    | some e =>
      refine ⟨h1, ?_⟩
      simpa [pyDictSet_length_of_get st.logs_by_id entry_id _ e hg] using h2

theorem run_ops_bounds (ops : List StoreOp) (st : DashboardState)
    (h1 : st.logs.length ≤ 100) (h2 : st.logs_by_id.length ≤ 100) :
    (run_ops st ops).logs.length ≤ 100 ∧ (run_ops st ops).logs_by_id.length ≤ 100 := by
  induction ops generalizing st with
  | nil => exact ⟨h1, h2⟩
  | cons op ops ih =>
    obtain ⟨g1, g2⟩ := apply_op_preserves_bounds st op h1 h2
    exact ih (apply_op st op) g1 g2

/-- C9: after any sequence of `add_log`, `update_log_entry` and
`update_trace_url` operations on the initially empty store, the ring holds
at most 100 records and the id index at most 100 entries. -/
theorem log_store_bounded (ops : List StoreOp) :
    (run_ops empty_store ops).logs.length ≤ 100 ∧
    (run_ops empty_store ops).logs_by_id.length ≤ 100 :=
  run_ops_bounds ops empty_store (by simp [empty_store]) (by simp [empty_store])

/-- C4 counterexample: the built-in Anthropic pattern has a non-empty host
pattern list that does not match the empty host, yet `matches` succeeds on
(`/v1/messages`, empty host), because `matches_host` accepts any empty
host; the claimed iff is false there. -/
theorem provider_matches_empty_host_counterexample :
    ProviderPattern.matches anthropic_provider lit_search lit_search "/v1/messages" "" = true ∧
    (claim_path_match anthropic_provider lit_search "/v1/messages" &&
      claim_host_match anthropic_provider lit_search "") = false := by
  decide

/-- C4 amended: `matches(path, host)` is true iff the path is non-empty and
some path pattern matches the leading-slash-normalized path AND (the host
is empty OR the host pattern list is empty OR some host pattern
case-insensitively matches the host). -/
theorem provider_matches_iff (p : ProviderPattern) (search search_ci : String → String → Bool)
    (path host : String) :
    p.matches search search_ci path host =
      (!(path == "") && claim_path_match p search path &&
        ((host == "") || claim_host_match p search_ci host)) := by
  unfold ProviderPattern.matches ProviderPattern.matches_path ProviderPattern.matches_host
    claim_path_match claim_host_match
  cases hpath : (path == "") with
  | true => simp [hpath]
  | false =>
    cases hhost : (host == "") with
    | true => simp [hpath, hhost]
    | false =>
      cases hemp : p.host_patterns.isEmpty with
      | true => simp [hpath, hhost, hemp]
      | false => simp [hpath, hhost, hemp]

theorem traceparent_pair_fst_ne_empty {h : List (String × String)} {t : String} {p : Option String}
    (hT : traceparent_pair h = (some t, p)) : t ≠ "" := by
  unfold traceparent_pair at hT
  cases hg : pyDictGet h "traceparent" with
  | none => rw [hg] at hT; simp at hT
  | some v => rw [hg] at hT; exact parse_w3c_trace_ne_empty hT

/-- C8: for all headers and body, `extract_trace_context` returns a context
whose `span_id` is the freshly generated 16-hex value and whose `trace_id`
is truthy (non-empty), equal to the claimed source cascade: a well-formed
`traceparent`, else the first of the four fallback headers truncated to 32
characters, else the body metadata/run/session fields, else the freshly
generated id. -/
theorem extract_trace_context_ok (fresh_span fresh_span_body fresh_trace : String)
    (headers : List (String × String)) (body : Option JVal)
    (hf : fresh_trace ≠ "") :
    (extract_trace_context fresh_span fresh_span_body fresh_trace headers body).span_id =
      JVal.str fresh_span ∧
    truthy (extract_trace_context fresh_span fresh_span_body fresh_trace headers body).trace_id = true ∧
    (extract_trace_context fresh_span fresh_span_body fresh_trace headers body).trace_id =
      claim_trace_id fresh_span_body fresh_trace headers body := by
  have hfb : (fresh_trace == "") = false := beq_eq_false_iff_ne.mpr hf
  simp only [extract_trace_context, extract_from_headers, claim_trace_id]
  cases hT : traceparent_pair (norm_headers headers) with
  | mk t1 p1 =>
    cases t1 with
    | some t =>
      have ht : t ≠ "" := traceparent_pair_fst_ne_empty hT
      have htb : (t == "") = false := beq_eq_false_iff_ne.mpr ht
      simp [htb, optStrToJ, truthy]
    | none =>
      cases hF : first_header_value (norm_headers headers) trace_header_keys with
      | some v =>
        have hv : v ≠ "" := first_header_value_ne_empty _ _ _ hF
        have htake : pyTake 32 v ≠ "" := pyTake_ne_empty 32 (by omega) hv
        have htb : (pyTake 32 v == "") = false := beq_eq_false_iff_ne.mpr htake
        simp [hF, htb, optStrToJ, truthy]
      | none =>
        cases hbody : optTruthy body with
        | false => simp [hF, hbody, optStrToJ, truthy, hfb]
        | true =>
          cases hEB : extract_from_body fresh_span_body body with
          | none => simp [hF, hbody, hEB, optStrToJ, truthy, hfb]
          | some bctx =>
            have tnull : truthy JVal.null = false := rfl
            have tfresh : truthy (JVal.str fresh_trace) = true := by simp [truthy, hf]
            cases hty : truthy bctx.trace_id with
            | false => simp [hF, hbody, hEB, hty, optStrToJ, tnull, tfresh]
            | true => simp [hF, hbody, hEB, hty, optStrToJ, tnull, tfresh]

/-- C8 witness: a request carrying a well-formed W3C `traceparent` header
and no body, at concrete fresh identifiers. -/
theorem extract_trace_context_ok_witness :
    ("9d7c6b5a4e3f2a1b9d7c6b5a4e3f2a1b" : String) ≠ "" ∧
    ((extract_trace_context "a1b2c3d4e5f60718" "0011223344556677" "9d7c6b5a4e3f2a1b9d7c6b5a4e3f2a1b"
        [("traceparent", "00-0af7651916cd43dd8448eb211c80319c-b7ad6b7169203331-01")] none).span_id =
      JVal.str "a1b2c3d4e5f60718" ∧
    truthy (extract_trace_context "a1b2c3d4e5f60718" "0011223344556677"
        "9d7c6b5a4e3f2a1b9d7c6b5a4e3f2a1b"
        [("traceparent", "00-0af7651916cd43dd8448eb211c80319c-b7ad6b7169203331-01")] none).trace_id = true ∧
    (extract_trace_context "a1b2c3d4e5f60718" "0011223344556677" "9d7c6b5a4e3f2a1b9d7c6b5a4e3f2a1b"
        [("traceparent", "00-0af7651916cd43dd8448eb211c80319c-b7ad6b7169203331-01")] none).trace_id =
      claim_trace_id "0011223344556677" "9d7c6b5a4e3f2a1b9d7c6b5a4e3f2a1b"
        [("traceparent", "00-0af7651916cd43dd8448eb211c80319c-b7ad6b7169203331-01")] none) :=
  ⟨by decide,
    extract_trace_context_ok "a1b2c3d4e5f60718" "0011223344556677"
      "9d7c6b5a4e3f2a1b9d7c6b5a4e3f2a1b"
      [("traceparent", "00-0af7651916cd43dd8448eb211c80319c-b7ad6b7169203331-01")] none (by decide)⟩

theorem splitOnCharL_cons (sep c : Char) (rest : List Char) :
    splitOnCharL sep (c :: rest) =
      if c = sep then [] :: splitOnCharL sep rest else consHead c (splitOnCharL sep rest) := rfl

theorem dropLast_cons_concat {α : Type} (a b : α) (l : List α) :
    (a :: (l ++ [b])).dropLast = a :: l := by
  rw [show a :: (l ++ [b]) = (a :: l) ++ [b] from rfl, List.dropLast_concat]

theorem procLine_nil (st : Agg) : procLine st [] = (st, false) := rfl

theorem procChoiceDelta_snd_indep (c delta : JVal) (st st' : Agg) :
    (procChoiceDelta st c delta).2 = (procChoiceDelta st' c delta).2 := by
  cases delta with
  | obj dfs =>
    simp only [procChoiceDelta]
    cases hc : contentAdd (JVal.obj dfs) with
    | none => rfl
    | some add => rfl
  | null => rfl
  | bool b => rfl
  | num n => rfl
  | str s => rfl
  | arr xs => rfl

theorem procChoice_snd_indep (c : JVal) (st st' : Agg) :
    (procChoice st c).2 = (procChoice st' c).2 := by
  cases c with
  | obj fs => exact procChoiceDelta_snd_indep _ _ st st'
  | null => rfl
  | bool b => rfl
  | num n => rfl
  | str s => rfl
  | arr xs => rfl

theorem procChoiceList_snd_indep (cs : List JVal) : ∀ st st' : Agg,
    (procChoiceList st cs).2 = (procChoiceList st' cs).2 := by
  induction cs with
  | nil => intro st st'; rfl
  | cons c cs ih =>
    intro st st'
    have hcc := procChoice_snd_indep c st st'
    simp only [procChoiceList]
    cases h1 : procChoice st c with
    | mk s1 b1 =>
      cases h2 : procChoice st' c with
      | mk s2 b2 =>
        have hb : b1 = b2 := by rw [h1, h2] at hcc; exact hcc
        subst hb
        cases b1 with
        | true => rfl
        | false => exact ih s1 s2

theorem procChoices_snd_indep (choices : JVal) (st st' : Agg) :
    (procChoices st choices).2 = (procChoices st' choices).2 := by
  cases choices with
  | arr cs => exact procChoiceList_snd_indep cs st st'
  | str s =>
    simp only [procChoices]
    by_cases hs : (s == "") = true
    · simp [hs]
    · simp [hs]
  | obj fs =>
    simp only [procChoices]
    by_cases hs : fs.isEmpty = true
    · simp [hs]
    · simp [hs]
  | null => rfl
  | bool b => rfl
  | num n => rfl

theorem procDataCore_snd_indep (data : JVal) (st st' : Agg) :
    (procDataCore st data).2 = (procDataCore st' data).2 := by
  have hcc := procChoices_snd_indep (jgetD data "choices" (JVal.arr [])) st st'
  simp only [procDataCore]
  cases h1 : procChoices st (jgetD data "choices" (JVal.arr [])) with
  | mk s1 b1 =>
    cases h2 : procChoices st' (jgetD data "choices" (JVal.arr [])) with
    | mk s2 b2 =>
      have hb : b1 = b2 := by rw [h1, h2] at hcc; exact hcc
      subst hb
      cases b1 with
      | true => rfl
      | false => rfl

theorem procData_snd_indep (d : JVal) (st st' : Agg) :
    (procData st d).2 = (procData st' d).2 := by
  cases d with
  | obj fs => exact procDataCore_snd_indep (JVal.obj fs) _ _
  | null => rfl
  | bool b => rfl
  | num n => rfl
  | str s => rfl
  | arr xs => rfl

theorem procLine_snd_indep (l : List Char) (st st' : Agg) :
    (procLine st l).2 = (procLine st' l).2 := by
  unfold procLine
  cases hdp : dataPayload (pyStrip l) with
  | none => rfl
  | some ds =>
    by_cases hdone : ds = "[DONE]".data
    · simp only [if_pos hdone]
    · simp only [if_neg hdone]
      cases hj : jloads ds with
      | none => rfl
      | some data => exact procData_snd_indep data st st'

theorem procLine_snd_eq_lineAborts (l : List Char) (st : Agg) :
    (procLine st l).2 = lineAborts l :=
  procLine_snd_indep l st emptyAgg

theorem runLines_eq_foldl (ls : List (List Char)) (st : Agg)
    (h : ∀ l ∈ ls, lineAborts l = false) :
    runLines st ls = ls.foldl lineStep st := by
  induction ls generalizing st with
  | nil => rfl
  | cons l ls ih =>
    have hl : (procLine st l).2 = false := by
      rw [procLine_snd_eq_lineAborts]
      exact h l (List.mem_cons_self l ls)
    simp only [runLines, List.foldl_cons]
    cases hp : procLine st l with
    | mk s1 b1 =>
      have hb : b1 = false := by rw [hp] at hl; exact hl
      subst hb
      rw [show lineStep st l = s1 from by unfold lineStep; rw [hp]]
      exact ih s1 (fun l2 hm => h l2 (List.mem_cons_of_mem _ hm))

theorem endsNL_split (cs : List Char) (h : endsNL cs = true) :
    ∃ ys, ys ≠ [] ∧ pyLines cs = ys ++ [[]] := by
  induction cs with
  | nil => simp [endsNL] at h
  | cons c rest ih =>
    cases rest with
    | nil =>
      have hc : c = '\n' := by simpa [endsNL] using h
      subst hc
      exact ⟨[[]], by simp, by simp [pyLines, splitOnCharL]⟩
    | cons c2 rest2 =>
      have h2 : endsNL (c2 :: rest2) = true := by simpa [endsNL] using h
      obtain ⟨ys, hys, hsplit⟩ := ih h2
      obtain ⟨y, ys1, rfl⟩ : ∃ y ys1, ys = y :: ys1 := by
        cases ys with
        | nil => exact absurd rfl hys
        | cons y ys1 => exact ⟨y, ys1, rfl⟩
      simp only [pyLines] at hsplit ⊢
      by_cases hc : c = '\n'
      · subst hc
        refine ⟨[] :: y :: ys1, by simp, ?_⟩
        rw [splitOnCharL_cons, if_pos rfl, hsplit]
        rfl
      · refine ⟨(c :: y) :: ys1, by simp, ?_⟩
        rw [splitOnCharL_cons, if_neg hc, hsplit]
        rfl

theorem pyLines_append (cs ds : List Char) (h : endsNL cs = true) :
    pyLines (cs ++ ds) = (pyLines cs).dropLast ++ pyLines ds := by
  induction cs with
  | nil => simp [endsNL] at h
  | cons c rest ih =>
    cases rest with
    | nil =>
      have hc : c = '\n' := by simpa [endsNL] using h
      subst hc
      simp [pyLines, splitOnCharL]
    | cons c2 rest2 =>
      have h2 : endsNL (c2 :: rest2) = true := by simpa [endsNL] using h
      obtain ⟨ys, hys, hsplit⟩ := endsNL_split (c2 :: rest2) h2
      obtain ⟨y, ys1, rfl⟩ : ∃ y ys1, ys = y :: ys1 := by
        cases ys with
        | nil => exact absurd rfl hys
        | cons y ys1 => exact ⟨y, ys1, rfl⟩
      simp only [pyLines] at hsplit ih ⊢
      by_cases hc : c = '\n'
      · subst hc
        rw [List.cons_append, splitOnCharL_cons, if_pos rfl, ih h2, hsplit,
          List.dropLast_concat, splitOnCharL_cons, if_pos rfl, hsplit,
          show ([] : List Char) :: ((y :: ys1) ++ [[]]) = ([] :: y :: ys1) ++ [[]] from rfl,
          List.dropLast_concat]
        rfl
      · rw [List.cons_append, splitOnCharL_cons, if_neg hc, ih h2, hsplit,
          List.dropLast_concat, splitOnCharL_cons, if_neg hc, hsplit,
          show consHead c ((y :: ys1) ++ [[]]) = (c :: y) :: (ys1 ++ [[]]) from rfl,
          show ((c : Char) :: y) :: (ys1 ++ [[]]) = ((c :: y) :: ys1) ++ [[]] from rfl,
          List.dropLast_concat]
        rfl

theorem pyLines_join (chunks : List (List Char)) (h : ∀ c ∈ chunks, endsNL c = true) :
    pyLines chunks.join = (chunks.map (fun c => (pyLines c).dropLast)).join ++ [[]] := by
  induction chunks with
  | nil => simp [pyLines, splitOnCharL]
  | cons c cs ih =>
    simp only [List.join_cons, List.map_cons]
    rw [pyLines_append c cs.join (h c (List.mem_cons_self c cs)),
      ih (fun x hx => h x (List.mem_cons_of_mem c hx))]
    simp [List.append_assoc]

theorem foldl_lineStep_append_nil (ls : List (List Char)) (st : Agg) :
    List.foldl lineStep st (ls ++ [[]]) = List.foldl lineStep st ls := by
  rw [List.foldl_append]
  rfl

theorem runChunks_eq_foldl (chunks : List (List Char)) (st : Agg)
    (hok : ∀ c ∈ chunks, chunkOk c = true) :
    runChunks st chunks = List.foldl lineStep st (chunks.map pyLines).join := by
  induction chunks generalizing st with
  | nil => rfl
  | cons c cs ih =>
    simp only [runChunks, List.map_cons, List.join_cons]
    rw [List.foldl_append]
    have hrc : runChunk st c = List.foldl lineStep st (pyLines c) := by
      unfold runChunk
      apply runLines_eq_foldl
      have hco := hok c (List.mem_cons_self c cs)
      unfold chunkOk at hco
      intro l hl
      have hb := (List.all_eq_true.mp hco) l hl
      simpa using hb
    rw [hrc]
    exact ih _ (fun x hx => hok x (List.mem_cons_of_mem c hx))

theorem foldl_join_dropLast (chunks : List (List Char)) (st : Agg)
    (h : ∀ c ∈ chunks, endsNL c = true) :
    List.foldl lineStep st (chunks.map pyLines).join =
      List.foldl lineStep st (chunks.map (fun c => (pyLines c).dropLast)).join := by
  induction chunks generalizing st with
  | nil => rfl
  | cons c cs ih =>
    simp only [List.map_cons, List.join_cons]
    rw [List.foldl_append, List.foldl_append]
    obtain ⟨ys, hys, hsplit⟩ := endsNL_split c (h c (List.mem_cons_self c cs))
    rw [hsplit, List.dropLast_concat, foldl_lineStep_append_nil]
    exact ih _ (fun x hx => h x (List.mem_cons_of_mem c hx))

theorem join_lines_ok (chunks : List (List Char))
    (hok : ∀ c ∈ chunks, chunkOk c = true) (hnl : ∀ c ∈ chunks, endsNL c = true) :
    ∀ l ∈ pyLines chunks.join, lineAborts l = false := by
  intro l hl
  rw [pyLines_join chunks hnl] at hl
  rcases List.mem_append.mp hl with hl1 | hl2
  · obtain ⟨lls, hlls, hmem⟩ := List.mem_join.mp hl1
    obtain ⟨c, hc, rfl⟩ := List.mem_map.mp hlls
    have hsub : l ∈ pyLines c := (List.dropLast_sublist (pyLines c)).subset hmem
    have hco := hok c hc
    unfold chunkOk at hco
    have hb := (List.all_eq_true.mp hco) l hsub
    simpa using hb
  · have hnil : l = [] := by simpa using hl2
    subst hnil
    rfl

/-- C5 counterexample: a `data: ` line whose payload is split across a
chunk boundary is dropped by the per-chunk scan but recovered from the
concatenation, so aggregation is not a function of the accumulated bytes
alone. -/
theorem parse_sse_chunks_split_line_counterexample :
    parse_sse_chunks c5_chunks = none ∧
    parse_sse_chunks c5_chunks ≠ parse_sse_chunks [c5_chunks.join] := by
  refine ⟨rfl, fun heq => ?_⟩
  have h1 : parse_sse_chunks c5_chunks = none := rfl
  have h2 : (parse_sse_chunks [c5_chunks.join]).isSome = true := rfl
  rw [← heq, h1] at h2
  simp at h2

/-- C5 amended: each chunk is decoded and scanned line-by-line on its own;
aggregating a chunk list equals aggregating the single concatenated chunk
provided every chunk ends with a newline (no line spans a chunk boundary)
and no chunk contains a malformed event that raises mid-scan. -/
theorem parse_sse_chunks_concat (chunks : List (List Char))
    (h : ∀ c ∈ chunks, endsNL c = true ∧ chunkOk c = true) :
    parse_sse_chunks chunks = parse_sse_chunks [chunks.join] := by
  have hnl : ∀ c ∈ chunks, endsNL c = true := fun c hc => (h c hc).1
  have hok : ∀ c ∈ chunks, chunkOk c = true := fun c hc => (h c hc).2
  have hrun : runChunks emptyAgg chunks = runChunks emptyAgg [chunks.join] := by
    rw [runChunks_eq_foldl chunks emptyAgg hok]
    have hconcat : runChunks emptyAgg [chunks.join] = runLines emptyAgg (pyLines chunks.join) := rfl
    rw [hconcat, runLines_eq_foldl _ _ (join_lines_ok chunks hok hnl)]
    rw [pyLines_join chunks hnl, foldl_lineStep_append_nil]
    exact foldl_join_dropLast chunks emptyAgg hnl
  unfold parse_sse_chunks
  rw [hrun]

/-- C5 witness: two concrete newline-terminated well-formed chunks. -/
theorem parse_sse_chunks_concat_witness :
    (∀ c ∈ c5_good_chunks, endsNL c = true ∧ chunkOk c = true) ∧
    parse_sse_chunks c5_good_chunks = parse_sse_chunks [c5_good_chunks.join] :=
  ⟨by decide, parse_sse_chunks_concat c5_good_chunks (by decide)⟩

/-- C6 counterexample: with no chunks accumulated the aggregation recovers
nothing, yet after the end-of-stream finalization the record still holds
the in-progress placeholder rather than null, because `update_log_entry`
skips a `None` response body. -/
theorem stream_finalize_placeholder_counterexample :
    parse_sse_chunks ([] : List (List Char)) = none ∧
    (pyDictGet (stream_finalize c6_store "e1" [] 3 7 200).logs_by_id "e1").map LogEntry.response_body
      = some (some streaming_placeholder) ∧
    ¬ ((pyDictGet (stream_finalize c6_store "e1" [] 3 7 200).logs_by_id "e1").map LogEntry.response_body
      = some none) := by
  refine ⟨rfl, rfl, fun hcon => ?_⟩
  have h2 : (pyDictGet (stream_finalize c6_store "e1" [] 3 7 200).logs_by_id "e1").map LogEntry.response_body
      = some (some streaming_placeholder) := rfl
  rw [h2] at hcon
  simp at hcon

/-- C6 amended: when the aggregation recovers nothing, `stream_finalize`
calls `update_log_entry` with a `None` response body, so the record keeps
its previous response body (the in-progress placeholder) while latency and
status code are still updated. -/
theorem stream_finalize_none_keeps_body (st : DashboardState) (entry_id : String)
    (chunks : List (List Char)) (ttfb total_ms status_code : Int) (entry : LogEntry)
    (hp : parse_sse_chunks chunks = none)
    (he : pyDictGet st.logs_by_id entry_id = some entry) :
    pyDictGet (stream_finalize st entry_id chunks ttfb total_ms status_code).logs_by_id entry_id =
      some { entry with latency_ms := round1 ttfb, status_code := status_code } := by
  unfold stream_finalize
  rw [hp]
  unfold update_log_entry
  rw [he]
  exact pyDictGet_set_self st.logs_by_id entry_id _

/-- C6 witness: the concrete streaming record finalized with no chunks. -/
theorem stream_finalize_none_keeps_body_witness :
    (parse_sse_chunks ([] : List (List Char)) = none ∧
     pyDictGet c6_store.logs_by_id "e1" = some c6_entry) ∧
    pyDictGet (stream_finalize c6_store "e1" [] 3 7 200).logs_by_id "e1" =
      some { c6_entry with latency_ms := round1 3, status_code := 200 } :=
  ⟨⟨rfl, rfl⟩, stream_finalize_none_keeps_body c6_store "e1" [] 3 7 200 c6_entry rfl rfl⟩
